import Mathlib

/-!
Verification of the configuration-mutation helpers in src/index.ts of
webextension-build-utils.

The file shallowly embeds the TypeScript source: the mutable webpack
Configuration record becomes an immutable Lean structure, and each exported
function becomes a pure function from the old configuration (plus its other
arguments) to the new one.  JavaScript objects used as string-to-string maps
are embedded as insertion-ordered association lists with unique keys, and the
JS idioms the source relies on (truthiness of optional strings, object spread,
property assignment, the stable Array.prototype.sort of ES2019) are given
explicit executable models below.  External collaborators that the source only
calls by name (the Node path module for a fixed working directory, and the
getEntries factory of webpack-watched-glob-entries-plugin, which returns a
watcher closure characterised by the glob patterns it captured) are modelled
as deterministic functions of their arguments.
-/

namespace WebextensionBuildUtils

/-- A JavaScript object holding string-valued properties, embedded as its
insertion-ordered list of key-value pairs.  A JS object never holds two
properties with the same key; records built by the operations below keep
their keys distinct. -/
abbrev Record := List (String × String)

/-- JS property assignment r[k] = v: if the key is present its value is
updated in place (keeping its position), otherwise the new property is
appended at the end, matching JS property insertion order. -/
def Record.set : Record → String → String → Record
  | [], k, v => [(k, v)]
  | p :: r, k, v => if p.1 = k then (k, v) :: r else p :: Record.set r k v

/-- JS property lookup r[k], none when the key is absent. -/
def Record.get? : Record → String → Option String
  | [], _ => none
  | p :: r, k => if p.1 = k then some p.2 else Record.get? r k

/-- The keys of a record in insertion order. -/
def Record.keys (r : Record) : List String := r.map Prod.fst

/-- JS object spread of a then b: every own property of b is assigned over a
copy of a, so properties of b win on key collisions.  (Identical to the JS
spread whenever a has unique keys, which every JS object has.) -/
def Record.spread (a b : Record) : Record :=
  b.foldl (fun acc p => Record.set acc p.1 p.2) a

/-- Working directory of the Node process.  The two path functions below model
the external path collaborator for one fixed working directory; the source
delegates path normalisation to it and never inspects the result. -/
def workingDir : String := "/project"

/-- Models path.join on two segments (segment concatenation; dot-segment
normalisation is irrelevant to the properties proved here). -/
def pathJoin (a b : String) : String := a ++ "/" ++ b

/-- Models path.resolve on one argument: an absolute path is kept, a relative
one is resolved against the working directory. -/
def pathResolve (p : String) : String :=
  if p.startsWith "/" then p else pathJoin workingDir p

/-- Models path.resolve on two arguments: an absolute second argument wins,
otherwise it is joined onto the first and resolved. -/
def pathResolve2 (a b : String) : String :=
  if b.startsWith "/" then b else pathResolve (pathJoin a b)

/-- JS truthiness of an optional string: undefined and the empty string are
falsy, every other string is truthy. -/
def strTruthy : Option String → Bool
  | none => false
  | some s => s != ""

/-- JS expression (o || d) for an optional string o and string default d. -/
def jsOrString (o : Option String) (d : String) : String :=
  match o with
  | some s => if s = "" then d else s
  | none => d

/-- A loader options value: the loader options objects in the source hold
string and boolean fields only. -/
inductive OptVal
  | s (v : String)
  | b (v : Bool)
deriving DecidableEq

/-- A loader reference written as an object, with its name and options. -/
structure LoaderObj where
  loader : String
  options : Option (List (String × OptVal)) := none
deriving DecidableEq

/-- One element of a rule's use chain: either a bare loader name string or a
loader object. -/
inductive LoaderUse
  | str (s : String)
  | obj (o : LoaderObj)
deriving DecidableEq

/-- A module rule: the test regex (embedded as its literal source text), the
loader chain, and the optional enforce stage. -/
structure Rule where
  test : String
  use : List LoaderUse
  enforce : Option String := none
deriving DecidableEq

/-- One pattern handed to copy-webpack-plugin. -/
structure CopyPatternCfg where
  «from» : String
  «to» : String
  cache : Bool
deriving DecidableEq

/-- A plugin instance: its runtime class identity (two distinct copies of the
same class loaded under npm link have distinct identities), the class name
visible through constructor.name, and the copy patterns payload when the
instance is a copy-webpack-plugin. -/
structure Plugin where
  typeId : Nat
  ctorName : String
  copyPatterns : Option (List CopyPatternCfg) := none
deriving DecidableEq

/-- Runtime identity of the copy of zip-webpack-plugin imported by this
package. -/
def ZipPlugin.typeId : Nat := 0

/-- Runtime identity of duplicate-package-checker-webpack-plugin. -/
def DuplicatePackageCheckerPlugin.typeId : Nat := 1

/-- Runtime identity of copy-webpack-plugin. -/
def CopyPlugin.typeId : Nat := 2

/-- The instance built by new DuplicatePackageCheckerPlugin(). -/
def DuplicatePackageCheckerPlugin.new : Plugin :=
  { typeId := DuplicatePackageCheckerPlugin.typeId
    ctorName := "DuplicatePackageCheckerPlugin" }

/-- The instance built by new CopyPlugin(patterns). -/
def CopyPlugin.new (patterns : List CopyPatternCfg) : Plugin :=
  { typeId := CopyPlugin.typeId
    ctorName := "CopyPlugin"
    copyPatterns := some patterns }

/-- The JS test (x instanceof DuplicatePackageCheckerPlugin). -/
def instanceOfDuplicatePackageChecker (x : Plugin) : Bool :=
  x.typeId == DuplicatePackageCheckerPlugin.typeId

/-- The resolve sub-record of a webpack configuration (the fields the source
touches). -/
structure Resolve where
  «alias» : Option Record := none
  extensions : Option (List String) := none
  modules : Option (List String) := none
deriving DecidableEq

/-- The module sub-record of a webpack configuration.  Its rules list is a
required field of the webpack schema, which the source relies on: it only
guards against the module record itself being absent. -/
structure Module where
  rules : List Rule
deriving DecidableEq

/-- A webpack entry value.  The scan constructor embeds the watcher closure
returned by the getEntries factory of webpack-watched-glob-entries-plugin,
characterised by the glob patterns it captured; the record constructor covers
a plain entry mapping supplied by the caller. -/
inductive Entry
  | scan (globs : List String)
  | record (r : Record)
deriving DecidableEq

/-- A single (non-array) externals value: a module-to-global mapping object or
a bare string. -/
inductive ExternalItem
  | str (s : String)
  | record (r : Record)
deriving DecidableEq

/-- The polymorphic externals field: a single value or an array of values. -/
inductive Externals
  | item (x : ExternalItem)
  | list (l : List ExternalItem)
deriving DecidableEq

/-- JS truthiness of a single externals value: only the empty string is
falsy; every object is truthy. -/
def ExternalItem.truthy : ExternalItem → Bool
  | ExternalItem.str s => s != ""
  | ExternalItem.record _ => true

/-- The webpack configuration record, restricted to the fields the source
reads or writes.  Absent optional fields are undefined in JS. -/
structure Configuration where
  context : Option String := none
  devtool : Option String := none
  entry : Option Entry := none
  resolve : Option Resolve := none
  module : Option Module := none
  plugins : Option (List Plugin) := none
  externals : Option Externals := none
deriving DecidableEq

/-- Models the getEntries factory of webpack-watched-glob-entries-plugin: it
returns a watcher closure over the given glob patterns, embedded by the globs
it captured. -/
def GlobEntriesPlugin.getEntries (globs : List String) : Entry :=
  Entry.scan globs

/-- Insertion step of the comparator-based stable sort below: the new element
is placed before the first element it does not have to follow. -/
def insertCmp (cmp : α → α → Int) (a : α) : List α → List α
  | [] => [a]
  | b :: l => if cmp a b ≤ 0 then a :: b :: l else b :: insertCmp cmp a l

/-- Models JavaScript Array.prototype.sort with a comparator.  ES2019 requires
the sort to be stable, and for a consistent comparator the stable sorted
permutation is unique, so the insertion sort below is an exact model. -/
def jsSort (cmp : α → α → Int) : List α → List α
  | [] => []
  | a :: l => insertCmp cmp a (jsSort cmp l)

/-- The isZipPlugin classifier from fixZipPackage: an instanceof check against
this package's copy of ZipPlugin, with a constructor-name fallback for copies
loaded from a different module instance under npm link. -/
def isZipPlugin (x : Plugin) : Bool :=
  x.typeId == ZipPlugin.typeId || x.ctorName == "ZipPlugin"

/-- fixZipPackage from src/index.ts: if there is no plugins list, return
unchanged; otherwise sort the plugins with the comparator that maps each
plugin to the binary key (1 for zip plugins, 0 otherwise) and compares keys
by subtraction, moving every zip plugin after every other plugin. -/
def fixZipPackage (config : Configuration) : Configuration :=
  match config.plugins with
  | none => config
  | some plugins =>
      { config with
        plugins := some (jsSort
          (fun a b =>
            (if isZipPlugin a then (1 : Int) else 0) -
            (if isZipPlugin b then (1 : Int) else 0))
          plugins) }

/-- getDedupeAliases from src/index.ts: starting from an empty object, assign
alias[mod] = path.resolve(path.join(folder, mod)) for each module name in
order.  The folder argument defaults to "./node_modules" in the source. -/
def getDedupeAliases (modules : List String) (folder : String) : Record :=
  modules.foldl
    (fun «alias» mod => Record.set «alias» mod (pathResolve (pathJoin folder mod)))
    []

/-- dedupeModules from src/index.ts: lazily initialise resolve, spread the
dedupe aliases over the existing alias object, lazily initialise plugins, and
push one DuplicatePackageCheckerPlugin unless one is already present (checked
by instanceof). -/
def dedupeModules (config : Configuration) (modules : List String)
    (folder : String) : Configuration :=
  let resolve := config.resolve.getD {}
  let resolve := { resolve with
    «alias» := some (Record.spread (resolve.«alias».getD [])
      (getDedupeAliases modules folder)) }
  let config := { config with resolve := some resolve }
  let plugins := config.plugins.getD []
  if plugins.any instanceOfDuplicatePackageChecker then
    { config with plugins := some plugins }
  else
    { config with plugins := some (plugins ++ [DuplicatePackageCheckerPlugin.new]) }

/-- The source-map-loader rule pushed by useSourceMap in development mode. -/
def sourceMapRule : Rule :=
  { test := "\\.js$"
    use := [LoaderUse.str "source-map-loader"]
    enforce := some "pre" }

/-- useSourceMap from src/index.ts: in development mode set devtool to
cheap-module-source-map, lazily initialise module, and push the pre-stage
source-map-loader rule; in production mode set devtool to source-map and do
nothing else. -/
def useSourceMap (config : Configuration) (dev : Bool) : Configuration :=
  if dev then
    let config := { config with devtool := some "cheap-module-source-map" }
    let module := config.module.getD { rules := [] }
    { config with module := some { module with rules := module.rules ++ [sourceMapRule] } }
  else
    { config with devtool := some "source-map" }

/-- The caller-supplied options record of useTypescript; absent fields take
the documented defaults. -/
structure TypeScriptOptions where
  entryPaths : Option (List String) := none
  modules : Option (List String) := none
  tsConfigFile : Option String := none
deriving DecidableEq

/-- The options record of useTypescript after merging over the defaults. -/
structure TypeScriptOptionsResolved where
  entryPaths : List String
  modules : List String
  tsConfigFile : String
deriving DecidableEq

/-- The options_ merge at the top of useTypescript: a fresh record holding,
for each field, the caller's value when present and the default otherwise.
The default entry path is path.resolve(config.context || 'app', '**'). -/
def TypeScriptOptions.merged (config : Configuration)
    (options : Option TypeScriptOptions) : TypeScriptOptionsResolved :=
  let o := options.getD {}
  { entryPaths := o.entryPaths.getD [pathResolve2 (jsOrString config.context "app") "**"]
    modules := o.modules.getD ["./node_modules"]
    tsConfigFile := o.tsConfigFile.getD "tsconfig.json" }

/-- The fixed entry glob of useTypescript. -/
def ENTRY_FILES : String := "*.\x7bjs,mjs,jsx,ts,tsx\x7d"

/-- The pre-stage tslint-loader rule pushed by useTypescript. -/
def tslintRule (tsConfigFile : String) : Rule :=
  { test := "\\.(ts|tsx)$"
    enforce := some "pre"
    use := [LoaderUse.obj
      { loader := "tslint-loader"
        options := some [("tsConfigFile", OptVal.s tsConfigFile),
                         ("emitErrors", OptVal.b true)] }] }

/-- The ts-loader rule pushed by useTypescript. -/
def tsRule : Rule :=
  { test := "\\.(ts|tsx)$"
    use := [LoaderUse.obj { loader := "ts-loader" }] }

/-- useTypescript from src/index.ts: merge options over defaults, lazily
initialise resolve and its lists, push the .ts and .tsx extensions, append
the configured module search paths, replace the entry mapping wholesale by
the glob scan over the configured entry paths, lazily initialise module, and
push the tslint-loader and ts-loader rules. -/
def useTypescript (config : Configuration) (options : Option TypeScriptOptions) :
    Configuration :=
  let options_ := TypeScriptOptions.merged config options
  let resolve := config.resolve.getD {}
  let extensions := resolve.extensions.getD []
  let modules := resolve.modules.getD []
  let resolve := { resolve with
    extensions := some (extensions ++ [".ts", ".tsx"])
    modules := some (modules ++ options_.modules) }
  let config := { config with resolve := some resolve }
  let config := { config with
    entry := some (GlobEntriesPlugin.getEntries
      (options_.entryPaths.map (fun p => pathResolve2 p ENTRY_FILES))) }
  let module := config.module.getD { rules := [] }
  { config with module := some { module with
      rules := module.rules ++ [tslintRule options_.tsConfigFile, tsRule] } }

/-- The caller-supplied options record of useCss; absent fields take the
documented defaults. -/
structure CssOptions where
  optimizeImages : Option Bool := none
  imagePath : Option String := none
deriving DecidableEq

/-- The options record of useCss after merging over the defaults. -/
structure CssOptionsResolved where
  optimizeImages : Bool
  imagePath : String
deriving DecidableEq

/-- The options_ merge at the top of useCss. -/
def CssOptions.merged (options : Option CssOptions) : CssOptionsResolved :=
  let o := options.getD {}
  { optimizeImages := o.optimizeImages.getD true
    imagePath := o.imagePath.getD "images" }

/-- The style-loader and css-loader rule pushed by useCss. -/
def cssRule : Rule :=
  { test := "\\.css$"
    use := [LoaderUse.obj { loader := "style-loader" },
            LoaderUse.obj { loader := "css-loader" }] }

/-- The file-loader and image-webpack-loader rule pushed by useCss,
parameterised by the merged options. -/
def imageRule (options_ : CssOptionsResolved) : Rule :=
  { test := "\\.(bmp|gif|jpg|jpeg|png|svg|tif|tiff|webp)$"
    use := [LoaderUse.obj
              { loader := "file-loader"
                options := some [("outputPath", OptVal.s (options_.imagePath ++ "/")),
                                 ("publicPath", OptVal.s ("/" ++ options_.imagePath ++ "/"))] },
            LoaderUse.obj
              { loader := "image-webpack-loader"
                options := some [("disable", OptVal.b (!options_.optimizeImages))] }] }

/-- useCss from src/index.ts: merge options over defaults, lazily initialise
module, and push the css rule and the image rule. -/
def useCss (config : Configuration) (options : Option CssOptions) : Configuration :=
  let options_ := CssOptions.merged options
  let module := config.module.getD { rules := [] }
  { config with module := some { module with
      rules := module.rules ++ [cssRule, imageRule options_] } }

/-- The ExternalDefinition argument of useExternal; from and to are optional
in the source. -/
structure ExternalDefinition where
  module : String
  global : String
  «from» : Option String := none
  «to» : Option String := none
deriving DecidableEq

/-- useExternal from src/index.ts: build the single module-to-global mapping;
if the externals field is truthy, push onto it when it is an array and
otherwise replace it by the two-element array of the old value and the new
mapping; if it is falsy (undefined or an empty string), set it to the single
new mapping.  Then lazily initialise plugins and, when both the from and the
to paths are truthy (present and non-empty), push one CopyPlugin configured
with that pair and cache: true. -/
def useExternal (config : Configuration) (d : ExternalDefinition) : Configuration :=
  let external : Record := [(d.module, d.global)]
  let newExternals : Externals :=
    match config.externals with
    | some (Externals.list l) => Externals.list (l ++ [ExternalItem.record external])
    | some (Externals.item x) =>
        if ExternalItem.truthy x then
          Externals.list [x, ExternalItem.record external]
        else
          Externals.item (ExternalItem.record external)
    | none => Externals.item (ExternalItem.record external)
  let config := { config with externals := some newExternals }
  let plugins := config.plugins.getD []
  if strTruthy d.«from» && strTruthy d.«to» then
    { config with
      plugins := some (plugins ++ [CopyPlugin.new
        [{ «from» := d.«from».getD "", «to» := d.«to».getD "", cache := true }]]) }
  else
    { config with plugins := some plugins }

/-- Count of duplicate-package-checker instances (by runtime type identity)
in the plugins list of a configuration. -/
def countDuplicateChecker (c : Configuration) : Nat :=
  (c.plugins.getD []).countP instanceOfDuplicatePackageChecker

/-! ## Helper lemmas about the record model -/

theorem Record.get?_set (r : Record) (k v k' : String) :
    Record.get? (Record.set r k v) k' = if k' = k then some v else Record.get? r k' := by
  induction r with
  | nil =>
      by_cases h : k' = k
      · subst h; simp [Record.set, Record.get?]
      · simp [Record.set, Record.get?, h, Ne.symm h]
  | cons p r ih =>
      by_cases hp : p.1 = k
      · by_cases h : k' = k
        · subst h; simp [Record.set, Record.get?, hp]
        · simp [Record.set, Record.get?, hp, h, Ne.symm h]
      · by_cases h : k' = k
        · subst h; simp [Record.set, Record.get?, hp, ih]
        · simp [Record.set, Record.get?, hp, h, ih]

theorem Record.get?_eq_none_of_not_mem_keys (r : Record) (k : String)
    (h : k ∉ Record.keys r) : Record.get? r k = none := by
  induction r with
  | nil => rfl
  | cons p r ih =>
      simp [Record.keys] at h
      simp [Record.get?, ih (by simp [Record.keys]; exact h.2), h.1, Ne.symm]

theorem Record.keys_set (r : Record) (k v : String) :
    Record.keys (Record.set r k v) =
      if k ∈ Record.keys r then Record.keys r else Record.keys r ++ [k] := by
  induction r with
  | nil => simp [Record.set, Record.keys]
  | cons p r ih =>
      by_cases hp : p.1 = k
      · simp [Record.set, Record.keys, hp]
      · simp only [Record.set, if_neg hp, Record.keys, List.map_cons, List.mem_cons]
        simp only [Record.keys] at ih
        by_cases hm : k ∈ r.map Prod.fst
        · simp [ih, hm, hp]
        · simp [ih, hm, hp, Ne.symm hp]

theorem Record.nodup_keys_set (r : Record) (k v : String)
    (h : (Record.keys r).Nodup) : (Record.keys (Record.set r k v)).Nodup := by
  rw [Record.keys_set]
  by_cases hm : k ∈ Record.keys r
  · simpa [hm] using h
  · simp [hm, List.nodup_append, h]

theorem Record.get?_spread (a b : Record) (k : String)
    (hb : (Record.keys b).Nodup) :
    Record.get? (Record.spread a b) k =
      match Record.get? b k with
      | some v => some v
      | none => Record.get? a k := by
  induction b generalizing a with
  | nil => simp [Record.spread, Record.get?]
  | cons p b ih =>
      simp only [Record.keys, List.map_cons, List.nodup_cons] at hb
      have hstep : Record.spread a (p :: b) = Record.spread (Record.set a p.1 p.2) b := rfl
      rw [hstep, ih _ hb.2]
      by_cases h : k = p.1
      · have hnone : Record.get? b p.1 = none :=
          Record.get?_eq_none_of_not_mem_keys b p.1 (by simpa [Record.keys] using hb.1)
        simp [h, hnone, Record.get?, Record.get?_set]
      · simp [Record.get?, Ne.symm h, Record.get?_set, h]

/-! ## Helper lemmas about getDedupeAliases -/

theorem get?_foldl_set (f : String → String) (mods : List String) (a : Record)
    (k : String) :
    Record.get? (mods.foldl (fun r m => Record.set r m (f m)) a) k =
      if k ∈ mods then some (f k) else Record.get? a k := by
  induction mods generalizing a with
  | nil => simp
  | cons m mods ih =>
      simp only [List.foldl_cons, ih, List.mem_cons]
      by_cases hm : k ∈ mods
      · simp [hm]
      · by_cases hk : k = m
        · subst hk; simp [hm, Record.get?_set]
        · simp [hm, hk, Record.get?_set]

theorem nodup_keys_foldl_set (f : String → String) (mods : List String) (a : Record)
    (h : (Record.keys a).Nodup) :
    (Record.keys (mods.foldl (fun r m => Record.set r m (f m)) a)).Nodup := by
  induction mods generalizing a with
  | nil => simpa
  | cons m mods ih => exact ih _ (Record.nodup_keys_set a m (f m) h)

theorem getDedupeAliases_get? (mods : List String) (folder k : String) :
    Record.get? (getDedupeAliases mods folder) k =
      if k ∈ mods then some (pathResolve (pathJoin folder k)) else none := by
  have := get?_foldl_set (fun m => pathResolve (pathJoin folder m)) mods [] k
  simpa [getDedupeAliases, Record.get?] using this

theorem getDedupeAliases_nodup_keys (mods : List String) (folder : String) :
    (Record.keys (getDedupeAliases mods folder)).Nodup := by
  have := nodup_keys_foldl_set (fun m => pathResolve (pathJoin folder m)) mods []
    (by simp [Record.keys])
  simpa [getDedupeAliases] using this

/-! ## Helper lemmas about the stable comparator sort -/

theorem insertCmp_of_head_le (cmp : α → α → Int) (a : α) (L : List α)
    (h : ∀ x ∈ L, cmp a x ≤ 0) : insertCmp cmp a L = a :: L := by
  cases L with
  | nil => rfl
  | cons b l => simp [insertCmp, h b (by simp)]

theorem insertCmp_append_skip (cmp : α → α → Int) (a : α) (A B : List α)
    (h : ∀ x ∈ A, ¬ cmp a x ≤ 0) :
    insertCmp cmp a (A ++ B) = A ++ insertCmp cmp a B := by
  induction A with
  | nil => rfl
  | cons x A ih =>
      have hx : ¬ cmp a x ≤ 0 := h x (by simp)
      simp [insertCmp, hx, ih (fun y hy => h y (by simp [hy]))]

theorem jsSort_binKey (p : α → Bool) (l : List α) :
    jsSort (fun a b => (if p a then (1 : Int) else 0) - (if p b then (1 : Int) else 0)) l
      = l.filter (fun x => !p x) ++ l.filter p := by
  induction l with
  | nil => rfl
  | cons a l ih =>
      simp only [jsSort, ih]
      by_cases hpa : p a
      · rw [insertCmp_append_skip _ _ _ _ (by
          intro x hx
          have hx' : p x = false := by simpa using (List.mem_filter.mp hx).2
          simp [hpa, hx'])]
        rw [insertCmp_of_head_le _ _ _ (by
          intro x hx
          have hx' : p x = true := (List.mem_filter.mp hx).2
          simp [hpa, hx'])]
        simp [List.filter_cons, hpa]
      · rw [insertCmp_of_head_le _ _ _ (by
          intro x hx
          by_cases hpx : p x <;> simp [hpa, hpx])]
        simp [List.filter_cons, hpa]

theorem length_filter_not_add (p : α → Bool) (l : List α) :
    (l.filter fun x => !p x).length + (l.filter p).length = l.length := by
  induction l with
  | nil => rfl
  | cons a l ih =>
      by_cases h : p a <;> simp [List.filter_cons, h] <;> omega

/-! ## Helper lemmas about the operations -/

theorem dedupeModules_resolve (c : Configuration) (mods : List String) (folder : String) :
    (dedupeModules c mods folder).resolve =
      some { c.resolve.getD {} with
        «alias» := some (Record.spread ((c.resolve.getD {}).«alias».getD [])
          (getDedupeAliases mods folder)) } := by
  simp only [dedupeModules]
  split <;> rfl

theorem dedupeModules_plugins (c : Configuration) (mods : List String) (folder : String) :
    (dedupeModules c mods folder).plugins =
      some (if (c.plugins.getD []).any instanceOfDuplicatePackageChecker
            then c.plugins.getD []
            else c.plugins.getD [] ++ [DuplicatePackageCheckerPlugin.new]) := by
  simp only [dedupeModules]
  split <;> simp_all

theorem useExternal_externals_eq (c : Configuration) (d : ExternalDefinition) :
    (useExternal c d).externals = some (
      match c.externals with
      | some (Externals.list l) =>
          Externals.list (l ++ [ExternalItem.record [(d.module, d.global)]])
      | some (Externals.item x) =>
          if ExternalItem.truthy x then
            Externals.list [x, ExternalItem.record [(d.module, d.global)]]
          else
            Externals.item (ExternalItem.record [(d.module, d.global)])
      | none => Externals.item (ExternalItem.record [(d.module, d.global)])) := by
  simp only [useExternal]
  split <;> rfl

theorem useExternal_plugins_eq (c : Configuration) (d : ExternalDefinition) :
    (useExternal c d).plugins = some (
      if strTruthy d.«from» && strTruthy d.«to» then
        c.plugins.getD [] ++ [CopyPlugin.new
          [{ «from» := d.«from».getD "", «to» := d.«to».getD "", cache := true }]]
      else c.plugins.getD []) := by
  simp only [useExternal]
  split <;> simp_all

/-! ## The claims -/

/-- C1: for every plugin list mixing zip-matching plugins (matched by runtime
type identity or by the class-name fallback) and other plugins, fixZipPackage
returns the non-matching plugins in their original relative order followed by
the matching plugins in their original relative order (stated as: the result
is exactly the non-matching sublist appended with the matching sublist), the
length is unchanged, and an absent or empty plugin list is a no-op. -/
theorem fixZipPackage_stable_partition (c : Configuration) :
    (c.plugins = none → fixZipPackage c = c) ∧
    (c.plugins = some [] → fixZipPackage c = c) ∧
    (∀ l, c.plugins = some l →
      (fixZipPackage c).plugins =
        some (l.filter (fun x => !isZipPlugin x) ++ l.filter (fun x => isZipPlugin x)) ∧
      ((fixZipPackage c).plugins.getD []).length = l.length) := by
  refine ⟨?_, ?_, ?_⟩
  · intro h; simp [fixZipPackage, h]
  · intro h; cases c; simp_all [fixZipPackage, jsSort]
  · intro l h
    have hsort := jsSort_binKey isZipPlugin l
    refine ⟨by simp [fixZipPackage, h, hsort], ?_⟩
    simp only [fixZipPackage, h]
    simp [hsort, length_filter_not_add]

/-- Witness for C1: a mix of this package's ZipPlugin, an npm-linked ZipPlugin
copy recognised only by class name, and two unrelated plugins. -/
theorem fixZipPackage_stable_partition_witness :
    (fixZipPackage { plugins := some [
        { typeId := ZipPlugin.typeId, ctorName := "ZipPlugin" },
        { typeId := 7, ctorName := "HtmlWebpackPlugin" },
        { typeId := 9, ctorName := "ZipPlugin" },
        { typeId := 8, ctorName := "CleanWebpackPlugin" }] }).plugins =
      some ([
        { typeId := ZipPlugin.typeId, ctorName := "ZipPlugin" },
        { typeId := 7, ctorName := "HtmlWebpackPlugin" },
        { typeId := 9, ctorName := "ZipPlugin" },
        { typeId := 8, ctorName := "CleanWebpackPlugin" }].filter (fun x => !isZipPlugin x) ++
        [({ typeId := ZipPlugin.typeId, ctorName := "ZipPlugin" } : Plugin),
         { typeId := 7, ctorName := "HtmlWebpackPlugin" },
         { typeId := 9, ctorName := "ZipPlugin" },
         { typeId := 8, ctorName := "CleanWebpackPlugin" }].filter (fun x => isZipPlugin x)) ∧
    ((fixZipPackage { plugins := some [
        { typeId := ZipPlugin.typeId, ctorName := "ZipPlugin" },
        { typeId := 7, ctorName := "HtmlWebpackPlugin" },
        { typeId := 9, ctorName := "ZipPlugin" },
        { typeId := 8, ctorName := "CleanWebpackPlugin" }] }).plugins.getD []).length =
      [({ typeId := ZipPlugin.typeId, ctorName := "ZipPlugin" } : Plugin),
       { typeId := 7, ctorName := "HtmlWebpackPlugin" },
       { typeId := 9, ctorName := "ZipPlugin" },
       { typeId := 8, ctorName := "CleanWebpackPlugin" }].length :=
  (fixZipPackage_stable_partition _).2.2 _ rfl

/-- C8: getDedupeAliases is a pure function of its two arguments (it is a
Lean function of them, with no state); its result maps a name m to the
resolved path of m inside the target folder exactly when m occurs in the
module list, and its keys are distinct, so a repeated module name yields the
single entry its last (equal) computed path wrote. -/
theorem getDedupeAliases_pure_spec (mods : List String) (folder m : String) :
    Record.get? (getDedupeAliases mods folder) m =
      (if m ∈ mods then some (pathResolve (pathJoin folder m)) else none) ∧
    (Record.keys (getDedupeAliases mods folder)).Nodup :=
  ⟨getDedupeAliases_get? mods folder m, getDedupeAliases_nodup_keys mods folder⟩

/-- C9: after dedupeModules, an alias key computed from the module list maps
to the newly computed dedupe path (overwriting any caller-supplied value),
and every other key keeps its caller-supplied value. -/
theorem dedupeModules_alias_precedence (c : Configuration) (mods : List String)
    (folder k : String) :
    Record.get? (((dedupeModules c mods folder).resolve.getD {}).«alias».getD []) k =
      (if k ∈ mods then some (pathResolve (pathJoin folder k))
       else Record.get? ((c.resolve.getD {}).«alias».getD []) k) := by
  rw [dedupeModules_resolve]
  simp only [Option.getD_some]
  rw [Record.get?_spread _ _ _ (getDedupeAliases_nodup_keys mods folder)]
  rw [getDedupeAliases_get?]
  by_cases hm : k ∈ mods <;> simp [hm]

/-- C3: dedupeModules never adds a duplicate-package-checker plugin when one
is already present (by runtime type identity), and calling it twice on a
configuration that starts with at most one such instance leaves exactly one
instance in the plugin list. -/
theorem dedupeModules_checker_once (c : Configuration) (mods : List String)
    (folder : String) :
    (∀ l, c.plugins = some l → l.any instanceOfDuplicatePackageChecker = true →
      (dedupeModules c mods folder).plugins = some l) ∧
    (countDuplicateChecker c ≤ 1 →
      countDuplicateChecker
        (dedupeModules (dedupeModules c mods folder) mods folder) = 1) := by
  constructor
  · intro l h hany
    rw [dedupeModules_plugins]
    simp [h, hany]
  · intro hle
    have hnew : instanceOfDuplicatePackageChecker DuplicatePackageCheckerPlugin.new = true := rfl
    have h1 := dedupeModules_plugins c mods folder
    have h2 := dedupeModules_plugins (dedupeModules c mods folder) mods folder
    by_cases hany : (c.plugins.getD []).any instanceOfDuplicatePackageChecker
    · have hpos : 0 < (c.plugins.getD []).countP instanceOfDuplicatePackageChecker := by
        rcases List.any_eq_true.mp hany with ⟨x, hx, hpx⟩
        exact List.countP_pos_iff.mpr ⟨x, hx, hpx⟩
      have hcount : (c.plugins.getD []).countP instanceOfDuplicatePackageChecker = 1 := by
        have := hle
        simp only [countDuplicateChecker] at this
        omega
      rw [h1] at h2
      simp only [hany, if_true] at h1 h2
      simp only [countDuplicateChecker, h2, h1]
      simp [hany, hcount]
    · have hzero : (c.plugins.getD []).countP instanceOfDuplicatePackageChecker = 0 := by
        rw [List.countP_eq_zero]
        intro a ha hpa
        exact hany (List.any_eq_true.mpr ⟨a, ha, hpa⟩)
      rw [h1] at h2
      simp only [hany, if_false, Bool.false_eq_true] at h1 h2
      have hany2 : ((c.plugins.getD []) ++ [DuplicatePackageCheckerPlugin.new]).any
          instanceOfDuplicatePackageChecker = true := by
        refine List.any_eq_true.mpr ⟨DuplicatePackageCheckerPlugin.new, ?_, hnew⟩
        simp
      simp only [countDuplicateChecker, h2]
      simp [hany2, List.countP_append, hzero]
      simp [List.countP_cons, hnew]

/-- Witness for C3: starting from the empty configuration (no checker
instance), two dedupeModules calls leave exactly one checker instance. -/
theorem dedupeModules_checker_once_witness :
    countDuplicateChecker ({} : Configuration) ≤ 1 ∧
    countDuplicateChecker
      (dedupeModules (dedupeModules ({} : Configuration) ["react"] "./node_modules")
        ["react"] "./node_modules") = 1 :=
  ⟨by decide,
   (dedupeModules_checker_once ({} : Configuration) ["react"] "./node_modules").2
     (by decide)⟩

/-- Counterexample for C2: the source guards the merge with JS truthiness, so
a present but falsy externals value (the empty string, a legal webpack
externals value) is replaced by the single new mapping instead of being kept
as the first element of a two-element list, contradicting the claim's
single-non-list-value branch. -/
theorem useExternal_externals_merge_cex :
    (useExternal { externals := some (Externals.item (ExternalItem.str "")) }
      { module := "jquery", global := "jQuery" }).externals
        = some (Externals.item (ExternalItem.record [("jquery", "jQuery")])) ∧
    (useExternal { externals := some (Externals.item (ExternalItem.str "")) }
      { module := "jquery", global := "jQuery" }).externals
        ≠ some (Externals.list [ExternalItem.str "",
            ExternalItem.record [("jquery", "jQuery")]]) := by
  constructor
  · rfl
  · decide

/-- C2 (amended): useExternal merges the new module-to-global mapping into
the externals field as follows: an absent externals field becomes the single
new mapping; a list of length N gains the new mapping as its last element,
giving length N+1; a truthy single non-list value x becomes the two-element
list of x followed by the new mapping; and (the amendment) a present but
falsy single value — the empty string — is treated like an absent field and
replaced by the single new mapping. -/
theorem useExternal_externals_merge (c : Configuration) (d : ExternalDefinition) :
    (c.externals = none →
      (useExternal c d).externals =
        some (Externals.item (ExternalItem.record [(d.module, d.global)]))) ∧
    (∀ l, c.externals = some (Externals.list l) →
      (useExternal c d).externals =
        some (Externals.list (l ++ [ExternalItem.record [(d.module, d.global)]]))) ∧
    (∀ x, c.externals = some (Externals.item x) → ExternalItem.truthy x = true →
      (useExternal c d).externals =
        some (Externals.list [x, ExternalItem.record [(d.module, d.global)]])) ∧
    (c.externals = some (Externals.item (ExternalItem.str "")) →
      (useExternal c d).externals =
        some (Externals.item (ExternalItem.record [(d.module, d.global)]))) := by
  refine ⟨?_, ?_, ?_, ?_⟩
  · intro h; rw [useExternal_externals_eq]; simp [h]
  · intro l h; rw [useExternal_externals_eq]; simp [h]
  · intro x h htr; rw [useExternal_externals_eq]; simp [h, htr]
  · intro h; rw [useExternal_externals_eq]; simp [h, ExternalItem.truthy]

/-- Witness for C2 at a list-valued externals field: the new mapping is
appended as the last element. -/
theorem useExternal_externals_merge_witness :
    (useExternal { externals := some (Externals.list
        [ExternalItem.record [("react", "React")]]) }
      { module := "jquery", global := "jQuery" }).externals =
      some (Externals.list ([ExternalItem.record [("react", "React")]] ++
        [ExternalItem.record [("jquery", "jQuery")]])) :=
  (useExternal_externals_merge
    { externals := some (Externals.list [ExternalItem.record [("react", "React")]]) }
    { module := "jquery", global := "jQuery" }).2.1
    [ExternalItem.record [("react", "React")]] rfl

/-- C10: when the from or the to field of the external definition is present
but empty, useExternal appends no copy plugin (emptiness behaves like
omission), the externals field is merged exactly as it would be with both
fields omitted, and the plugins field is left initialised to a (possibly
empty) list in every case. -/
theorem useExternal_empty_path (c : Configuration) (d : ExternalDefinition) :
    ((d.«from» = some "" ∨ d.«to» = some "") →
      (useExternal c d).plugins = some (c.plugins.getD [])) ∧
    (useExternal c d).externals =
      (useExternal c { d with «from» := none, «to» := none }).externals ∧
    ((useExternal c d).plugins).isSome = true := by
  refine ⟨?_, ?_, ?_⟩
  · rintro (h | h) <;> rw [useExternal_plugins_eq] <;> simp [h, strTruthy]
  · rw [useExternal_externals_eq, useExternal_externals_eq]
  · rw [useExternal_plugins_eq]; simp

/-- Witness for C10: an empty from path with a non-empty to path appends no
copy plugin. -/
theorem useExternal_empty_path_witness :
    (useExternal { plugins := some [{ typeId := 7, ctorName := "HtmlWebpackPlugin" }] }
      { module := "jquery", global := "jQuery", «from» := some "", «to» := some "dist/jquery.js" }).plugins =
      some (({ plugins := some [{ typeId := 7, ctorName := "HtmlWebpackPlugin" }] }
        : Configuration).plugins.getD []) :=
  (useExternal_empty_path
    { plugins := some [{ typeId := 7, ctorName := "HtmlWebpackPlugin" }] }
    { module := "jquery", global := "jQuery", «from» := some "",
      «to» := some "dist/jquery.js" }).1 (Or.inl rfl)

/-- C5: with the development flag true, useSourceMap sets devtool to the
fast cheap-module-source-map format and appends exactly the one pre-stage
source-map-loader rule for plain .js files to the rules list; with the flag
false it sets devtool to the full source-map format and changes nothing
else, adding no rule. -/
theorem useSourceMap_modes (c : Configuration) :
    (useSourceMap c true).devtool = some "cheap-module-source-map" ∧
    ((useSourceMap c true).module.getD { rules := [] }).rules =
      (c.module.getD { rules := [] }).rules ++ [sourceMapRule] ∧
    sourceMapRule.enforce = some "pre" ∧
    sourceMapRule.test = "\\.js$" ∧
    (useSourceMap c false).devtool = some "source-map" ∧
    (useSourceMap c false).module = c.module := by
  refine ⟨?_, ?_, rfl, rfl, ?_, ?_⟩
  · simp [useSourceMap]
  · simp [useSourceMap]
  · simp [useSourceMap]
  · simp [useSourceMap]

/-- C6: after useTypescript the entry field equals exactly the glob scan
over the merged entry search paths (each resolved against the fixed entry
glob), and is therefore independent of the previous entry mapping: replacing
the incoming entry field by anything does not change the result. -/
theorem useTypescript_entry_replace (c : Configuration) (o : Option TypeScriptOptions) :
    (useTypescript c o).entry =
      some (GlobEntriesPlugin.getEntries
        ((TypeScriptOptions.merged c o).entryPaths.map
          (fun p => pathResolve2 p ENTRY_FILES))) ∧
    ∀ e : Option Entry,
      (useTypescript { c with entry := e } o).entry = (useTypescript c o).entry := by
  constructor
  · simp [useTypescript]
  · intro e
    simp [useTypescript, TypeScriptOptions.merged]

/-- C4: for the two operations taking an options record, every field present
in the caller's record overrides the corresponding default, every absent
field keeps the default, the merge is shallow (a present container field
replaces the default wholesale instead of being merged into it, as the
override conjuncts state), and passing no record equals passing the empty
record.  The merge builds a fresh resolved record, so the caller's record is
not mutated — in this embedding the merge functions return a new value and
their arguments are immutable, exactly as the source builds a fresh object
by spreading the caller's record over the defaults. -/
theorem options_default_merge (c : Configuration) (t : TypeScriptOptions)
    (u : CssOptions) :
    (∀ v, t.entryPaths = some v →
      (TypeScriptOptions.merged c (some t)).entryPaths = v) ∧
    (t.entryPaths = none →
      (TypeScriptOptions.merged c (some t)).entryPaths =
        [pathResolve2 (jsOrString c.context "app") "**"]) ∧
    (∀ v, t.modules = some v →
      (TypeScriptOptions.merged c (some t)).modules = v) ∧
    (t.modules = none →
      (TypeScriptOptions.merged c (some t)).modules = ["./node_modules"]) ∧
    (∀ v, t.tsConfigFile = some v →
      (TypeScriptOptions.merged c (some t)).tsConfigFile = v) ∧
    (t.tsConfigFile = none →
      (TypeScriptOptions.merged c (some t)).tsConfigFile = "tsconfig.json") ∧
    (TypeScriptOptions.merged c none = TypeScriptOptions.merged c (some {})) ∧
    (∀ v, u.optimizeImages = some v →
      (CssOptions.merged (some u)).optimizeImages = v) ∧
    (u.optimizeImages = none → (CssOptions.merged (some u)).optimizeImages = true) ∧
    (∀ v, u.imagePath = some v → (CssOptions.merged (some u)).imagePath = v) ∧
    (u.imagePath = none → (CssOptions.merged (some u)).imagePath = "images") ∧
    (CssOptions.merged none = CssOptions.merged (some {})) := by
  refine ⟨fun v h => ?_, fun h => ?_, fun v h => ?_, fun h => ?_, fun v h => ?_,
    fun h => ?_, rfl, fun v h => ?_, fun h => ?_, fun v h => ?_, fun h => ?_, rfl⟩ <;>
    simp [TypeScriptOptions.merged, CssOptions.merged, h]

/-- Witness for C4: a record overriding some fields and leaving others to
their defaults, for both operations. -/
theorem options_default_merge_witness :
    (TypeScriptOptions.merged {} (some { entryPaths := some ["src"], tsConfigFile := some "tsconfig.build.json" })).entryPaths = ["src"] ∧
    (TypeScriptOptions.merged {} (some { entryPaths := some ["src"], tsConfigFile := some "tsconfig.build.json" })).modules = ["./node_modules"] ∧
    (TypeScriptOptions.merged {} (some { entryPaths := some ["src"], tsConfigFile := some "tsconfig.build.json" })).tsConfigFile = "tsconfig.build.json" ∧
    (CssOptions.merged (some { optimizeImages := some false })).optimizeImages = false ∧
    (CssOptions.merged (some { optimizeImages := some false })).imagePath = "images" := by
  have h := options_default_merge ({} : Configuration)
    { entryPaths := some ["src"], tsConfigFile := some "tsconfig.build.json" }
    { optimizeImages := some false }
  exact ⟨h.1 ["src"] rfl, h.2.2.2.1 rfl, h.2.2.2.2.1 "tsconfig.build.json" rfl,
    h.2.2.2.2.2.2.2.1 false rfl, h.2.2.2.2.2.2.2.2.2.2.1 rfl⟩

/-- Counterexample for C7: fixZipPackage does not lazily initialise an
absent plugins list to an empty list — on a configuration with no plugins
field it is a documented no-op, leaving the field absent, so the claim's
"every operation lazily initializes the absent container" is false for it. -/
theorem fixZipPackage_no_lazy_init_cex :
    (fixZipPackage ({} : Configuration)).plugins = none ∧
    (fixZipPackage ({} : Configuration)).plugins ≠ some [] := by
  exact ⟨rfl, by decide⟩

/-- C7 (amended): no operation treats an absent configuration sub-field as
fatal: every operation that mutates a container lazily initialises it when
absent — dedupeModules initialises resolve (with the computed aliases) and
plugins (with the one checker), useSourceMap in development mode initialises
module, useTypescript initialises resolve and module, useCss initialises
module, and useExternal initialises plugins — while fixZipPackage, the one
exception forced by the counterexample, treats an absent plugin list as a
documented no-op, completing without initialising it.  All operations are
total functions of the configuration. -/
theorem ops_lazy_init (c : Configuration) (mods : List String) (folder : String)
    (d : ExternalDefinition) (o : Option TypeScriptOptions) (u : Option CssOptions) :
    (c.resolve = none →
      (dedupeModules c mods folder).resolve =
        some { «alias» := some (Record.spread [] (getDedupeAliases mods folder)) }) ∧
    (c.plugins = none →
      (dedupeModules c mods folder).plugins = some [DuplicatePackageCheckerPlugin.new]) ∧
    (c.module = none →
      (useSourceMap c true).module = some { rules := [sourceMapRule] }) ∧
    (c.resolve = none →
      (useTypescript c o).resolve =
        some { extensions := some [".ts", ".tsx"], modules := some (TypeScriptOptions.merged c o).modules }) ∧
    (c.module = none →
      (useTypescript c o).module =
        some { rules := [tslintRule (TypeScriptOptions.merged c o).tsConfigFile, tsRule] }) ∧
    (c.module = none →
      (useCss c u).module = some { rules := [cssRule, imageRule (CssOptions.merged u)] }) ∧
    (c.plugins = none → ((useExternal c d).plugins).isSome = true) ∧
    (c.plugins = none → fixZipPackage c = c) := by
  refine ⟨?_, ?_, ?_, ?_, ?_, ?_, ?_, ?_⟩
  · intro h; rw [dedupeModules_resolve]; simp [h]
  · intro h; rw [dedupeModules_plugins]; simp [h, instanceOfDuplicatePackageChecker]
  · intro h; simp [useSourceMap, h]
  · intro h; simp [useTypescript, h]
  · intro h; simp [useTypescript, h]
  · intro h; simp [useCss, h]
  · intro h; rw [useExternal_plugins_eq]; simp
  · intro h; simp [fixZipPackage, h]

/-- Witness for C7 at the empty configuration. -/
theorem ops_lazy_init_witness :
    (dedupeModules ({} : Configuration) ["react"] "./node_modules").resolve =
      some { «alias» := some (Record.spread []
        (getDedupeAliases ["react"] "./node_modules")) } ∧
    (dedupeModules ({} : Configuration) ["react"] "./node_modules").plugins =
      some [DuplicatePackageCheckerPlugin.new] ∧
    (useSourceMap ({} : Configuration) true).module = some { rules := [sourceMapRule] } ∧
    (useTypescript ({} : Configuration) none).resolve =
      some { extensions := some [".ts", ".tsx"], modules := some (TypeScriptOptions.merged ({} : Configuration) none).modules } ∧
    (useTypescript ({} : Configuration) none).module =
      some { rules := [tslintRule
        (TypeScriptOptions.merged ({} : Configuration) none).tsConfigFile, tsRule] } ∧
    (useCss ({} : Configuration) none).module =
      some { rules := [cssRule, imageRule (CssOptions.merged none)] } ∧
    ((useExternal ({} : Configuration)
      { module := "jquery", global := "jQuery" }).plugins).isSome = true ∧
    fixZipPackage ({} : Configuration) = ({} : Configuration) := by
  have h := ops_lazy_init ({} : Configuration) ["react"] "./node_modules"
    { module := "jquery", global := "jQuery" } none none
  exact ⟨h.1 rfl, h.2.1 rfl, h.2.2.1 rfl, h.2.2.2.1 rfl, h.2.2.2.2.1 rfl,
    h.2.2.2.2.2.1 rfl, h.2.2.2.2.2.2.1 rfl, h.2.2.2.2.2.2.2 rfl⟩

end WebextensionBuildUtils
